import Mathlib

/-!
Verification of the PUDL glue data model (`src/pudl/models/glue.py`).

The source file declares, with SQLAlchemy, nine tables: two static
classification tables (`ferc_accounts`, `ferc_depreciation_lines`), four
source-identity tables (`utilities_ferc`, `plants_ferc`, `utilities_eia`,
`plants_eia`), two canonical-entity tables (`utilities`, `plants`) and the
many-to-many association table (`utility_plant_assn`), together with three
closed `Enum` value sets of jurisdiction codes.  This development embeds the
declared schema (column names, types, primary keys, nullability, foreign
keys, comments) literally, and embeds the write-time enforcement of those
declared constraints — performed by the storage engine, which is not part of
the repository source — as explicitly modelled operations.
-/

namespace Pudl

/-- The SQL column types that appear in `glue.py`: `Integer`, `String`, and a
named `Enum`. -/
inductive SQLType
  | sqlInteger
  | sqlString
  | sqlEnum (enumName : String)
  deriving DecidableEq

/-- One SQLAlchemy `Column(...)` declaration: name, type, `primary_key=`,
`nullable=`, optional `ForeignKey(...)` target and optional `comment=`.
SQLAlchemy defaults: `primary_key=False`, `nullable=True` except that a
primary-key column is non-nullable; no foreign key and no comment unless
given. -/
structure Column where
  colName : String
  dtype : SQLType
  primary_key : Bool := false
  nullable : Bool := true
  foreignKey : Option String := none
  comment : Option String := none
  deriving DecidableEq

/-- One declarative table: `__tablename__`, its columns in declaration order,
and the table-level `comment` from `__table_args__` when present. -/
structure Table where
  tableName : String
  columns : List Column
  tableComment : Option String := none
  deriving DecidableEq

/-- Modelled from the spec: the jurisdiction-code key list
`pudl.constants.us_states.keys()` (the full US states+territories set) —
`pudl.constants` is repository code not present under `src/`, so its fixed
key lists are reconstructed from the spec's description. -/
def us_states_keys : List String :=
  ["AK", "AL", "AR", "AZ", "CA", "CO", "CT", "DC", "DE", "FL",
   "GA", "HI", "IA", "ID", "IL", "IN", "KS", "KY", "LA", "MA",
   "MD", "ME", "MI", "MN", "MO", "MS", "MT", "NC", "ND", "NE",
   "NH", "NJ", "NM", "NV", "NY", "OH", "OK", "OR", "PA", "RI",
   "SC", "SD", "TN", "TX", "UT", "VA", "VT", "WA", "WI", "WV",
   "WY", "AS", "GU", "MP", "PR", "VI"]

/-- Modelled from the spec: the key list `pudl.constants.cems_states.keys()`
(the 48 contiguous states plus DC, the lower-48 subset used for emissions
reporting), reconstructed from the spec's description. -/
def cems_states_keys : List String :=
  ["AL", "AR", "AZ", "CA", "CO", "CT", "DC", "DE", "FL", "GA",
   "IA", "ID", "IL", "IN", "KS", "KY", "LA", "MA", "MD", "ME",
   "MI", "MN", "MO", "MS", "MT", "NC", "ND", "NE", "NH", "NJ",
   "NM", "NV", "NY", "OH", "OK", "OR", "PA", "RI", "SC", "SD",
   "TN", "TX", "UT", "VA", "VT", "WA", "WI", "WV", "WY"]

/-- Modelled from the spec: the key list
`pudl.constants.canada_prov_terr.keys()` (Canadian provinces and
territories), reconstructed from the spec's description. -/
def canada_prov_terr_keys : List String :=
  ["AB", "BC", "MB", "NB", "NL", "NS", "NT", "NU", "ON", "PE",
   "QC", "SK", "YT"]

/-- A SQLAlchemy `Enum(...)` object: its `name=` and the splatted value
list. -/
structure SAEnum where
  enumName : String
  values : List String
  deriving DecidableEq

/-- `us_states_territories = Enum(*pudl.constants.us_states.keys(), ...)`. -/
def us_states_territories : SAEnum :=
  { enumName := "us_states_territories", values := us_states_keys }

/-- `us_states_lower48 = Enum(*pudl.constants.cems_states.keys(), ...)`. -/
def us_states_lower48 : SAEnum :=
  { enumName := "us_states_lower48", values := cems_states_keys }

/-- `us_states_canada_prov_terr = Enum(*pudl.constants.us_states.keys(),
*pudl.constants.canada_prov_terr.keys(), ...)`: the two key lists splatted
one after the other. -/
def us_states_canada_prov_terr : SAEnum :=
  { enumName := "us_states_canada_prov_terr",
    values := us_states_keys ++ canada_prov_terr_keys }

/-- A write-time enumeration validation failure, carrying the offending
value and the name of the allowed set. -/
inductive ValidationError
  | enumerationViolation (value : String) (allowedSet : String)
  deriving DecidableEq

/-- Modelled from the spec: the Reference Enumeration Validator — validating
a value against an `Enum` succeeds, returning the value unchanged, exactly
when the value is a member of the enum's fixed value list, and otherwise
rejects it with an error naming the value and the allowed set.  The check
itself is performed by SQLAlchemy's `Enum` machinery, outside the repository
source. -/
def validateEnum (e : SAEnum) (v : String) : Except ValidationError String :=
  if v ∈ e.values then Except.ok v
  else Except.error (ValidationError.enumerationViolation v e.enumName)

/-- `class FERCAccount`, `__tablename__ = 'ferc_accounts'`. -/
def FERCAccount : Table :=
  { tableName := "ferc_accounts"
    tableComment := some "Account numbers from the FERC Uniform System of Accounts for Electric Plant, which is defined in Code of Federal Regulations (CFR) Title 18, Chapter I, Subchapter C, Part 101. (See e.g. https://www.law.cornell.edu/cfr/text/18/part-101)."
    columns :=
      [ { colName := "id", dtype := SQLType.sqlString, primary_key := true,
          nullable := false,
          comment := some "Account number, from FERC's Uniform System of Accounts for Electric Plant. Also includes higher level labeled categories." },
        { colName := "description", dtype := SQLType.sqlString,
          nullable := false,
          comment := some "Long description of the FERC Account." } ] }

/-- `class FERCDepreciationLine`, `__tablename__ = 'ferc_depreciation_lines'`. -/
def FERCDepreciationLine : Table :=
  { tableName := "ferc_depreciation_lines"
    tableComment := some "PUDL assigned FERC Form 1 line identifiers and long descriptions from FERC Form 1 page 219, Accumulated Provision for Depreciation of Electric Utility Plant (Account 108)."
    columns :=
      [ { colName := "id", dtype := SQLType.sqlString, primary_key := true,
          nullable := false,
          comment := some "A human readable string uniquely identifying the FERC depreciation account. Used in lieu of the actual line number, as those numbers are not guaranteed to be consistent from year to year." },
        { colName := "description", dtype := SQLType.sqlString,
          nullable := false,
          comment := some "Description of the FERC depreciation account, as listed on FERC Form 1, Page 219." } ] }

/-- `class UtilityFERC1`, `__tablename__ = 'utilities_ferc'`. -/
def UtilityFERC1 : Table :=
  { tableName := "utilities_ferc"
    columns :=
      [ { colName := "utility_id_ferc1", dtype := SQLType.sqlInteger,
          primary_key := true, nullable := false },
        { colName := "utility_name_ferc1", dtype := SQLType.sqlString,
          nullable := false },
        { colName := "utility_id_pudl", dtype := SQLType.sqlInteger,
          nullable := false, foreignKey := some "utilities.id" } ] }

/-- `class PlantFERC1`, `__tablename__ = 'plants_ferc'`. -/
def PlantFERC1 : Table :=
  { tableName := "plants_ferc"
    columns :=
      [ { colName := "utility_id_ferc1", dtype := SQLType.sqlInteger,
          primary_key := true, nullable := false,
          foreignKey := some "utilities_ferc.utility_id_ferc1" },
        { colName := "plant_name", dtype := SQLType.sqlString,
          primary_key := true, nullable := false },
        { colName := "plant_id_pudl", dtype := SQLType.sqlInteger,
          nullable := false, foreignKey := some "plants.id" } ] }

/-- `class UtilityEIA923`, `__tablename__ = 'utilities_eia'`. -/
def UtilityEIA923 : Table :=
  { tableName := "utilities_eia"
    columns :=
      [ { colName := "utility_id_eia", dtype := SQLType.sqlInteger,
          primary_key := true, nullable := false },
        { colName := "utility_name", dtype := SQLType.sqlString,
          nullable := false },
        { colName := "utility_id_pudl", dtype := SQLType.sqlInteger,
          nullable := false, foreignKey := some "utilities.id" } ] }

/-- `class PlantEIA923`, `__tablename__ = 'plants_eia'`. -/
def PlantEIA923 : Table :=
  { tableName := "plants_eia"
    columns :=
      [ { colName := "plant_id_eia", dtype := SQLType.sqlInteger,
          primary_key := true, nullable := false },
        { colName := "plant_name", dtype := SQLType.sqlString,
          nullable := false },
        { colName := "plant_id_pudl", dtype := SQLType.sqlInteger,
          nullable := false, foreignKey := some "plants.id" } ] }

/-- `class Utility`, `__tablename__ = 'utilities'`. -/
def Utility : Table :=
  { tableName := "utilities"
    columns :=
      [ { colName := "id", dtype := SQLType.sqlInteger,
          primary_key := true, nullable := false },
        { colName := "name", dtype := SQLType.sqlString,
          nullable := false } ] }

/-- `class Plant`, `__tablename__ = 'plants'`; its `name` column has no
`nullable=False`, so it keeps SQLAlchemy's default `nullable=True`. -/
def Plant : Table :=
  { tableName := "plants"
    columns :=
      [ { colName := "id", dtype := SQLType.sqlInteger,
          primary_key := true, nullable := false },
        { colName := "name", dtype := SQLType.sqlString } ] }

/-- `class UtilityPlantAssn`, `__tablename__ = 'utility_plant_assn'`. -/
def UtilityPlantAssn : Table :=
  { tableName := "utility_plant_assn"
    columns :=
      [ { colName := "utility_id", dtype := SQLType.sqlInteger,
          primary_key := true, nullable := false,
          foreignKey := some "utilities.id" },
        { colName := "plant_id", dtype := SQLType.sqlInteger,
          primary_key := true, nullable := false,
          foreignKey := some "plants.id" } ] }

/-- All nine tables declared in `glue.py`, in declaration order. -/
def allTables : List Table :=
  [FERCAccount, FERCDepreciationLine, UtilityFERC1, PlantFERC1,
   UtilityEIA923, PlantEIA923, Utility, Plant, UtilityPlantAssn]

/-- A column carries documentation when its `comment=` is a non-empty
string. -/
def colHasComment (c : Column) : Bool :=
  match c.comment with
  | some s => !(s == "")
  | none => false

/-- A row of `utilities`: integer primary key `id`, `name` column whose
value may in principle be SQL NULL (`none`) — the schema's `nullable=False`
is enforced by the row-validity check below. -/
structure UtilityRow where
  id : Int
  name : Option String
  deriving DecidableEq

/-- A row of `plants`: integer primary key `id`, nullable `name`. -/
structure PlantRow where
  id : Int
  name : Option String
  deriving DecidableEq

/-- A row of `utilities_ferc`. -/
structure UtilityFERC1Row where
  utility_id_ferc1 : Int
  utility_name_ferc1 : Option String
  utility_id_pudl : Option Int
  deriving DecidableEq

/-- A row of `plants_ferc`; both primary-key columns are non-nullable, so
they are modelled as plain values. -/
structure PlantFERC1Row where
  utility_id_ferc1 : Int
  plant_name : String
  plant_id_pudl : Option Int
  deriving DecidableEq

/-- A row of `utilities_eia`. -/
structure UtilityEIA923Row where
  utility_id_eia : Int
  utility_name : Option String
  utility_id_pudl : Option Int
  deriving DecidableEq

/-- A row of `plants_eia`. -/
structure PlantEIA923Row where
  plant_id_eia : Int
  plant_name : Option String
  plant_id_pudl : Option Int
  deriving DecidableEq

/-- A row of `utility_plant_assn`; both columns are primary-key components
and hence non-nullable. -/
structure UtilityPlantAssnRow where
  utility_id : Int
  plant_id : Int
  deriving DecidableEq

/-- The state of the glue database: one row list per declared table. -/
structure GlueDB where
  utilities : List UtilityRow
  plants : List PlantRow
  utilities_ferc : List UtilityFERC1Row
  plants_ferc : List PlantFERC1Row
  utilities_eia : List UtilityEIA923Row
  plants_eia : List PlantEIA923Row
  utility_plant_assn : List UtilityPlantAssnRow
  deriving DecidableEq

/-- Some `utilities` row has the given `id`. -/
def hasUtility (db : GlueDB) (i : Int) : Bool :=
  db.utilities.any fun u => u.id == i

/-- Some `plants` row has the given `id`. -/
def hasPlant (db : GlueDB) (i : Int) : Bool :=
  db.plants.any fun p => p.id == i

/-- Some `utilities_ferc` row has the given `utility_id_ferc1`. -/
def hasUtilityFerc (db : GlueDB) (i : Int) : Bool :=
  db.utilities_ferc.any fun u => u.utility_id_ferc1 == i

/-- A nullable foreign-key value satisfies `ForeignKey('utilities.id')`
together with `nullable=False`: it is non-NULL and an existing `utilities`
id. -/
def refUtility (db : GlueDB) : Option Int → Bool
  | some i => hasUtility db i
  | none => false

/-- A nullable foreign-key value satisfies `ForeignKey('plants.id')`
together with `nullable=False`. -/
def refPlant (db : GlueDB) : Option Int → Bool
  | some i => hasPlant db i
  | none => false

/-- Boolean distinctness of a key list (no key occurs twice). -/
def distinctKeys {κ : Type} [DecidableEq κ] : List κ → Bool
  | [] => true
  | x :: xs => decide (x ∉ xs) && distinctKeys xs

/-- Row validity for `utilities`: `name` is `nullable=False`. -/
def utilityRowOK (r : UtilityRow) : Bool :=
  r.name.isSome

/-- Row validity for `plants`: no non-key constraint (`name` is nullable). -/
def plantRowOK (_ : PlantRow) : Bool :=
  true

/-- Row validity for `utilities_ferc`: non-NULL name, and
`utility_id_pudl` a non-NULL reference to an existing `utilities` row. -/
def utilityFercRowOK (db : GlueDB) (r : UtilityFERC1Row) : Bool :=
  r.utility_name_ferc1.isSome && refUtility db r.utility_id_pudl

/-- Row validity for `plants_ferc`: `utility_id_ferc1` references an
existing `utilities_ferc` row, `plant_id_pudl` a non-NULL reference to an
existing `plants` row. -/
def plantFercRowOK (db : GlueDB) (r : PlantFERC1Row) : Bool :=
  hasUtilityFerc db r.utility_id_ferc1 && refPlant db r.plant_id_pudl

/-- Row validity for `utilities_eia`. -/
def utilityEiaRowOK (db : GlueDB) (r : UtilityEIA923Row) : Bool :=
  r.utility_name.isSome && refUtility db r.utility_id_pudl

/-- Row validity for `plants_eia`. -/
def plantEiaRowOK (db : GlueDB) (r : PlantEIA923Row) : Bool :=
  r.plant_name.isSome && refPlant db r.plant_id_pudl

/-- Row validity for `utility_plant_assn`: both foreign keys reference
existing canonical rows. -/
def assnRowOK (db : GlueDB) (a : UtilityPlantAssnRow) : Bool :=
  hasUtility db a.utility_id && hasPlant db a.plant_id

/-- Referential integrity of the Association Registry alone: every stored
association references an existing canonical utility and plant. -/
def assnIntegrity (db : GlueDB) : Bool :=
  db.utility_plant_assn.all (assnRowOK db)

/-- The full set of constraints declared by the `glue.py` schema: every
row satisfies its NOT NULL and foreign-key constraints, and every table's
primary key takes pairwise-distinct values. -/
def glueDBok (db : GlueDB) : Bool :=
  db.utilities.all utilityRowOK &&
  db.plants.all plantRowOK &&
  db.utilities_ferc.all (utilityFercRowOK db) &&
  db.plants_ferc.all (plantFercRowOK db) &&
  db.utilities_eia.all (utilityEiaRowOK db) &&
  db.plants_eia.all (plantEiaRowOK db) &&
  db.utility_plant_assn.all (assnRowOK db) &&
  distinctKeys (db.utilities.map UtilityRow.id) &&
  distinctKeys (db.plants.map PlantRow.id) &&
  distinctKeys (db.utilities_ferc.map UtilityFERC1Row.utility_id_ferc1) &&
  distinctKeys (db.plants_ferc.map fun r => (r.utility_id_ferc1, r.plant_name)) &&
  distinctKeys (db.utilities_eia.map UtilityEIA923Row.utility_id_eia) &&
  distinctKeys (db.plants_eia.map PlantEIA923Row.plant_id_eia) &&
  distinctKeys (db.utility_plant_assn.map fun a => (a.utility_id, a.plant_id))

/-- Write-time failures surfaced by the storage layer or the loader. -/
inductive WriteError
  | referentialIntegrityViolation (table : String) (key : Int)
  | duplicateKey (table : String)
  | notNullViolation (table : String) (column : String)
  | emptyDescription (table : String)
  deriving DecidableEq

/-- Modelled from the spec: write-time enforcement, by the storage engine
(not part of the repository source), of the two `ForeignKey` declarations of
`UtilityPlantAssn` — an insert whose `utility_id` or `plant_id` does not
name an existing canonical row is rejected with a
`referentialIntegrityViolation` and the database is returned unchanged. -/
def tryInsertAssn (db : GlueDB) (u p : Int) : GlueDB × Option WriteError :=
  if hasUtility db u then
    if hasPlant db p then
      ({ db with utility_plant_assn := ⟨u, p⟩ :: db.utility_plant_assn },
       none)
    else
      (db, some (WriteError.referentialIntegrityViolation "plants" p))
  else
    (db, some (WriteError.referentialIntegrityViolation "utilities" u))

/-- A row of either classification table (`ferc_accounts` and
`ferc_depreciation_lines` declare identical columns): string primary key
`id`, `description` with `nullable=False`. -/
structure ClassificationRow where
  id : String
  description : Option String
  deriving DecidableEq

/-- Modelled from the spec: one insert step of the Classification Table
Loader (spec 4.2), which is repository code absent from `src/`.  The loader
populates a classification table from a fixed `(identifier, description)`
reference list and guarantees that after loading the identifier is unique
within the table and the description is always present and non-empty; so an
insert rejects a duplicate identifier, a missing (NULL) description, and an
empty description string. -/
def insertClassification (table : String) (t : List ClassificationRow)
    (r : ClassificationRow) : Except WriteError (List ClassificationRow) :=
  if t.any fun x => x.id == r.id then
    Except.error (WriteError.duplicateKey table)
  else
    match r.description with
    | none => Except.error (WriteError.notNullViolation table "description")
    | some s =>
      if s == "" then
        Except.error (WriteError.emptyDescription table)
      else
        Except.ok (r :: t)

/-- Modelled from the spec: the Classification Table Loader (spec 4.2)
inserting the rows of the fixed reference list one by one, stopping at the
first violation of its guarantees. -/
def loadClassification (table : String) :
    List ClassificationRow → List ClassificationRow →
    Except WriteError (List ClassificationRow)
  | t, [] => Except.ok t
  | t, r :: rs =>
    match insertClassification table t r with
    | Except.ok t2 => loadClassification table t2 rs
    | Except.error e => Except.error e

/-- Python attribute-access failure. -/
inductive PyError
  | attributeError (attr : String)
  deriving DecidableEq

/-- Render a nullable integer the way Python's str() renders it inside an
f-string (`None` for NULL). -/
def optIntStr : Option Int → String
  | some i => toString i
  | none => "None"

/-- Attribute lookup on a `PlantFERC1` instance: the mapped columns are
`utility_id_ferc1`, `plant_name` and `plant_id_pudl`; any other attribute
name raises `AttributeError`. -/
def PlantFERC1Row.getattr (r : PlantFERC1Row) (a : String) :
    Except PyError String :=
  if a == "utility_id_ferc1" then Except.ok (toString r.utility_id_ferc1)
  else if a == "plant_name" then Except.ok r.plant_name
  else if a == "plant_id_pudl" then Except.ok (optIntStr r.plant_id_pudl)
  else Except.error (PyError.attributeError a)

/-- `PlantFERC1.__repr__`: the f-string evaluates its interpolations left to
right, and the first one reads `self.respondent_id`. -/
def PlantFERC1Row.pyRepr (r : PlantFERC1Row) : Except PyError String := do
  let a ← r.getattr "respondent_id"
  let b ← r.getattr "plant_name"
  let c ← r.getattr "plant_id_pudl"
  Except.ok ("<PlantFERC1(respondent_id=" ++ a ++ ", plant_name='" ++ b ++
    "', plant_id_pudl=" ++ c ++ ")>")

/-- A small concrete database state satisfying every declared constraint;
used to witness the hypothesis-bearing theorems below. -/
def exampleDB : GlueDB :=
  { utilities := [⟨1, some "Acme Power"⟩],
    plants := [⟨2, some "Acme Plant"⟩],
    utilities_ferc := [⟨100, some "Acme Power", some 1⟩],
    plants_ferc := [⟨100, "Acme Plant", some 2⟩],
    utilities_eia := [⟨7001, some "Acme Power Co", some 1⟩],
    plants_eia := [⟨900, some "Acme Plant", some 2⟩],
    utility_plant_assn := [⟨1, 2⟩] }

/-- If the keys of a list are pairwise distinct, two members with equal keys
are the same member. -/
theorem distinctKeys_inj {κ α : Type} [DecidableEq κ] (k : α → κ) :
    ∀ l : List α, distinctKeys (l.map k) = true →
      ∀ r1 ∈ l, ∀ r2 ∈ l, k r1 = k r2 → r1 = r2 := by
  intro l
  induction l with
  | nil =>
    intro _ r1 h1
    exact absurd h1 (List.not_mem_nil r1)
  | cons x xs ih =>
    intro hd r1 h1 r2 h2 hk
    simp only [List.map_cons, distinctKeys, Bool.and_eq_true,
      decide_eq_true_eq] at hd
    obtain ⟨hx, hxs⟩ := hd
    rcases List.mem_cons.mp h1 with rfl | h1m
    · rcases List.mem_cons.mp h2 with rfl | h2m
      · rfl
      · have hmem : k r1 ∈ List.map k xs := by
          rw [hk]
          exact List.mem_map.mpr ⟨r2, h2m, rfl⟩
        exact absurd hmem hx
    · rcases List.mem_cons.mp h2 with rfl | h2m
      · have hmem : k r2 ∈ List.map k xs := by
          rw [← hk]
          exact List.mem_map.mpr ⟨r1, h1m, rfl⟩
        exact absurd hmem hx
      · exact ih hxs r1 h1m r2 h2m hk

/-- A true foreign-key check on a nullable column yields a concrete non-NULL
referenced `utilities` id. -/
theorem refUtility_spec (db : GlueDB) (o : Option Int)
    (h : refUtility db o = true) :
    ∃ i, o = some i ∧ hasUtility db i = true := by
  cases o with
  | none => exact absurd h (by simp [refUtility])
  | some i => exact ⟨i, rfl, h⟩

/-- A true foreign-key check on a nullable column yields a concrete non-NULL
referenced `plants` id. -/
theorem refPlant_spec (db : GlueDB) (o : Option Int)
    (h : refPlant db o = true) :
    ∃ i, o = some i ∧ hasPlant db i = true := by
  cases o with
  | none => exact absurd h (by simp [refPlant])
  | some i => exact ⟨i, rfl, h⟩

/-- Unpacking of the schema-wide validity check into its per-table parts. -/
theorem glueDBok_parts (db : GlueDB) (h : glueDBok db = true) :
    (∀ r ∈ db.utilities, utilityRowOK r = true) ∧
    (∀ r ∈ db.utilities_ferc, utilityFercRowOK db r = true) ∧
    (∀ r ∈ db.plants_ferc, plantFercRowOK db r = true) ∧
    (∀ r ∈ db.utilities_eia, utilityEiaRowOK db r = true) ∧
    (∀ r ∈ db.plants_eia, plantEiaRowOK db r = true) ∧
    (∀ a ∈ db.utility_plant_assn, assnRowOK db a = true) ∧
    distinctKeys (db.plants_ferc.map fun r =>
      (r.utility_id_ferc1, r.plant_name)) = true ∧
    distinctKeys (db.plants_eia.map PlantEIA923Row.plant_id_eia) = true := by
  simp only [glueDBok, Bool.and_eq_true, List.all_eq_true] at h
  obtain ⟨⟨⟨⟨⟨⟨⟨⟨⟨⟨⟨⟨⟨h1, h2⟩, h3⟩, h4⟩, h5⟩, h6⟩, h7⟩,
    h8⟩, h9⟩, h10⟩, h11⟩, h12⟩, h13⟩, h14⟩ := h
  exact ⟨h1, h3, h4, h5, h6, h7, h11, h13⟩

/-- Loading classification rows preserves primary-key distinctness and
presence and non-emptiness of descriptions. -/
theorem loadClassification_inv (table : String) :
    ∀ (input t0 t : List ClassificationRow),
      distinctKeys (t0.map ClassificationRow.id) = true →
      (∀ r ∈ t0, ∃ s, r.description = some s ∧ s ≠ "") →
      loadClassification table t0 input = Except.ok t →
      distinctKeys (t.map ClassificationRow.id) = true ∧
      ∀ r ∈ t, ∃ s, r.description = some s ∧ s ≠ "" := by
  intro input
  induction input with
  | nil =>
    intro t0 t h1 h2 hload
    simp only [loadClassification] at hload
    injection hload with heq
    subst heq
    exact ⟨h1, h2⟩
  | cons r rs ih =>
    intro t0 t h1 h2 hload
    simp only [loadClassification] at hload
    cases hins : insertClassification table t0 r with
    | error e =>
      rw [hins] at hload
      exact Except.noConfusion hload
    | ok t2 =>
      rw [hins] at hload
      unfold insertClassification at hins
      by_cases hdup : (t0.any fun x => x.id == r.id) = true
      · simp [hdup] at hins
      · rcases hrd : r.description with _ | s
        · simp [hdup, hrd] at hins
        · by_cases hse : (s == "") = true
          · simp [hdup, hrd, hse] at hins
          · simp only [hdup, hrd, hse, if_false, Bool.false_eq_true,
              if_neg, Except.ok.injEq] at hins
            subst hins
            refine ih (r :: t0) t ?_ ?_ hload
            · simp only [List.map_cons, distinctKeys, Bool.and_eq_true,
                decide_eq_true_eq]
              refine ⟨?_, h1⟩
              intro hmem
              rw [List.mem_map] at hmem
              obtain ⟨x, hx, hxe⟩ := hmem
              exact hdup (List.any_eq_true.mpr ⟨x, hx, by simp [hxe]⟩)
            · intro q hq
              rcases List.mem_cons.mp hq with rfl | hq2
              · exact ⟨s, hrd, by simpa using hse⟩
              · exact h2 q hq2

/-- C1: referential integrity of the Association Registry — inserting into
`utility_plant_assn` preserves the invariant that every stored association
references an existing `utilities` id and an existing `plants` id; an insert
whose utility or plant id is not present among the canonical entities fails
with a referential-integrity violation and leaves the registry unchanged,
while an insert with both ids present succeeds. -/
theorem assn_referential_integrity (db : GlueDB) (u p : Int)
    (h : assnIntegrity db = true) :
    assnIntegrity (tryInsertAssn db u p).1 = true ∧
    (hasUtility db u = true → hasPlant db p = true →
      (tryInsertAssn db u p).2 = none) ∧
    (hasUtility db u = false ∨ hasPlant db p = false →
      (tryInsertAssn db u p).1 = db ∧
      ∃ t k, (tryInsertAssn db u p).2 =
        some (WriteError.referentialIntegrityViolation t k)) := by
  by_cases hu : hasUtility db u = true
  · by_cases hp : hasPlant db p = true
    · have e1 : tryInsertAssn db u p =
          ({ db with utility_plant_assn :=
            ⟨u, p⟩ :: db.utility_plant_assn }, none) := by
        simp [tryInsertAssn, hu, hp]
      refine ⟨?_, fun _ _ => by rw [e1], fun hor => ?_⟩
      · rw [e1]
        show ((hasUtility db u && hasPlant db p) && assnIntegrity db) = true
        rw [hu, hp, h]
        rfl
      · rcases hor with hc | hc
        · rw [hc] at hu
          exact absurd hu (by simp)
        · rw [hc] at hp
          exact absurd hp (by simp)
    · simp only [Bool.not_eq_true] at hp
      have e1 : tryInsertAssn db u p =
          (db, some (WriteError.referentialIntegrityViolation "plants" p)) := by
        simp [tryInsertAssn, hu, hp]
      refine ⟨by rw [e1]; exact h, fun _ hc => absurd hc (by simp [hp]),
        fun _ => ⟨by rw [e1], "plants", p, by rw [e1]⟩⟩
  · simp only [Bool.not_eq_true] at hu
    have e1 : tryInsertAssn db u p =
        (db, some (WriteError.referentialIntegrityViolation "utilities" u)) := by
      simp [tryInsertAssn, hu]
    refine ⟨by rw [e1]; exact h, fun hc _ => absurd hc (by simp [hu]),
      fun _ => ⟨by rw [e1], "utilities", u, by rw [e1]⟩⟩

/-- Witness for C1: in the concrete example database, inserting an
association to the nonexistent plant id 99 is rejected with a
referential-integrity violation and leaves the database unchanged. -/
theorem assn_referential_integrity_witness :
    (tryInsertAssn exampleDB 1 99).1 = exampleDB ∧
    ∃ t k, (tryInsertAssn exampleDB 1 99).2 =
      some (WriteError.referentialIntegrityViolation t k) :=
  (assn_referential_integrity exampleDB 1 99 (by decide)).2.2
    (Or.inr (by decide))

/-- C2: for each of the three predefined enumerations, validating a value
succeeds — returning the value itself, never a coerced one — exactly when
the value is a member of the enumeration's fixed value list, and otherwise
fails with an error naming the offending value and the allowed set. -/
theorem enum_validation_iff (e : SAEnum) (v : String)
    (_he : e = us_states_territories ∨ e = us_states_lower48 ∨
      e = us_states_canada_prov_terr) :
    (validateEnum e v = Except.ok v ↔ v ∈ e.values) ∧
    (∀ w, validateEnum e v = Except.ok w → w = v) ∧
    (v ∉ e.values →
      validateEnum e v =
        Except.error (ValidationError.enumerationViolation v e.enumName)) := by
  refine ⟨⟨fun hok => ?_, fun hv => by simp [validateEnum, hv]⟩,
    fun w hok => ?_, fun hv => by simp [validateEnum, hv]⟩
  · by_contra hv
    simp [validateEnum, hv] at hok
  · by_cases hv : v ∈ e.values
    · simp only [validateEnum, if_pos hv, Except.ok.injEq] at hok
      exact hok.symm
    · simp [validateEnum, hv] at hok

/-- Witness for C2: the value ZZ is outside the lower-48 set and is rejected
with an error naming it and the set. -/
theorem enum_validation_iff_witness :
    validateEnum us_states_lower48 "ZZ" =
      Except.error (ValidationError.enumerationViolation "ZZ"
        "us_states_lower48") :=
  (enum_validation_iff us_states_lower48 "ZZ" (Or.inr (Or.inl rfl))).2.2
    (by decide)

/-- C3: after a successful load of each classification table, the
identifier is unique within the table (no two rows share an id) and every
row's description is present and non-empty. -/
theorem classification_load_unique_and_nonempty
    (accIn depIn ta td : List ClassificationRow)
    (ha : loadClassification "ferc_accounts" [] accIn = Except.ok ta)
    (hd : loadClassification "ferc_depreciation_lines" [] depIn =
      Except.ok td) :
    (distinctKeys (ta.map ClassificationRow.id) = true ∧
      ∀ r ∈ ta, ∃ s, r.description = some s ∧ s ≠ "") ∧
    (distinctKeys (td.map ClassificationRow.id) = true ∧
      ∀ r ∈ td, ∃ s, r.description = some s ∧ s ≠ "") :=
  ⟨loadClassification_inv "ferc_accounts" accIn [] ta rfl (by simp) ha,
   loadClassification_inv "ferc_depreciation_lines" depIn [] td rfl
     (by simp) hd⟩

/-- Witness for C3: loading one concrete row into each classification table
yields unique identifiers and present, non-empty descriptions. -/
theorem classification_load_unique_and_nonempty_witness :
    (distinctKeys ((([⟨"101", some "Steam"⟩] : List ClassificationRow)).map
        ClassificationRow.id) = true ∧
      ∀ r ∈ ([⟨"101", some "Steam"⟩] : List ClassificationRow),
        ∃ s, r.description = some s ∧ s ≠ "") ∧
    (distinctKeys ((([⟨"d1", some "Depr"⟩] : List ClassificationRow)).map
        ClassificationRow.id) = true ∧
      ∀ r ∈ ([⟨"d1", some "Depr"⟩] : List ClassificationRow),
        ∃ s, r.description = some s ∧ s ≠ "") :=
  classification_load_unique_and_nonempty
    [⟨"101", some "Steam"⟩] [⟨"d1", some "Depr"⟩]
    [⟨"101", some "Steam"⟩] [⟨"d1", some "Depr"⟩] rfl rfl

/-- C4: in any database state satisfying the declared schema constraints,
every `utilities_ferc` and `utilities_eia` row carries a non-NULL
`utility_id_pudl` that is the id of an existing `utilities` row, and every
`plants_ferc` and `plants_eia` row carries a non-NULL `plant_id_pudl` that
is the id of an existing `plants` row. -/
theorem source_records_reference_canonical (db : GlueDB)
    (h : glueDBok db = true) :
    (∀ r ∈ db.utilities_ferc, ∃ i, r.utility_id_pudl = some i ∧
      hasUtility db i = true) ∧
    (∀ r ∈ db.utilities_eia, ∃ i, r.utility_id_pudl = some i ∧
      hasUtility db i = true) ∧
    (∀ r ∈ db.plants_ferc, ∃ i, r.plant_id_pudl = some i ∧
      hasPlant db i = true) ∧
    (∀ r ∈ db.plants_eia, ∃ i, r.plant_id_pudl = some i ∧
      hasPlant db i = true) := by
  obtain ⟨_, huf, hpf, hue, hpe, _, _, _⟩ := glueDBok_parts db h
  refine ⟨fun r hr => ?_, fun r hr => ?_, fun r hr => ?_, fun r hr => ?_⟩
  · have h2 := huf r hr
    simp only [utilityFercRowOK, Bool.and_eq_true] at h2
    exact refUtility_spec db r.utility_id_pudl h2.2
  · have h2 := hue r hr
    simp only [utilityEiaRowOK, Bool.and_eq_true] at h2
    exact refUtility_spec db r.utility_id_pudl h2.2
  · have h2 := hpf r hr
    simp only [plantFercRowOK, Bool.and_eq_true] at h2
    exact refPlant_spec db r.plant_id_pudl h2.2
  · have h2 := hpe r hr
    simp only [plantEiaRowOK, Bool.and_eq_true] at h2
    exact refPlant_spec db r.plant_id_pudl h2.2

/-- Witness for C4: the FERC utility row of the example database references
the canonical utility with id 1. -/
theorem source_records_reference_canonical_witness :
    ∃ i, (⟨100, some "Acme Power", some 1⟩ : UtilityFERC1Row).utility_id_pudl
        = some i ∧ hasUtility exampleDB i = true :=
  (source_records_reference_canonical exampleDB (by decide)).1
    ⟨100, some "Acme Power", some 1⟩ (by decide)

/-- C5: under the declared primary keys, two `plants_ferc` rows of a valid
database are equal exactly when they agree on both components of the
composite key `(utility_id_ferc1, plant_name)`, while two `plants_eia` rows
are equal exactly when they agree on the single key `plant_id_eia`; the
declared primary-key columns are exactly those. -/
theorem plant_identity_keys (db : GlueDB) (h : glueDBok db = true) :
    (∀ r1 ∈ db.plants_ferc, ∀ r2 ∈ db.plants_ferc,
      (r1 = r2 ↔ r1.utility_id_ferc1 = r2.utility_id_ferc1 ∧
        r1.plant_name = r2.plant_name)) ∧
    (∀ r1 ∈ db.plants_eia, ∀ r2 ∈ db.plants_eia,
      (r1 = r2 ↔ r1.plant_id_eia = r2.plant_id_eia)) ∧
    (PlantFERC1.columns.filter Column.primary_key).map Column.colName =
      ["utility_id_ferc1", "plant_name"] ∧
    (PlantEIA923.columns.filter Column.primary_key).map Column.colName =
      ["plant_id_eia"] := by
  obtain ⟨_, _, _, _, _, _, hdkf, hdke⟩ := glueDBok_parts db h
  refine ⟨fun r1 h1 r2 h2 => ⟨fun he => by rw [he]; exact ⟨rfl, rfl⟩, ?_⟩,
    fun r1 h1 r2 h2 => ⟨fun he => by rw [he], ?_⟩, rfl, rfl⟩
  · rintro ⟨ha, hb⟩
    exact distinctKeys_inj (fun r => (r.utility_id_ferc1, r.plant_name))
      db.plants_ferc hdkf r1 h1 r2 h2 (by simp [ha, hb])
  · intro ha
    exact distinctKeys_inj PlantEIA923Row.plant_id_eia
      db.plants_eia hdke r1 h1 r2 h2 ha

/-- Witness for C5: instantiating the key characterisation at the single
FERC plant row of the example database. -/
theorem plant_identity_keys_witness :
    (⟨100, "Acme Plant", some 2⟩ : PlantFERC1Row) =
        ⟨100, "Acme Plant", some 2⟩ ↔
      (100 : Int) = 100 ∧ "Acme Plant" = "Acme Plant" :=
  (plant_identity_keys exampleDB (by decide)).1
    ⟨100, "Acme Plant", some 2⟩ (by decide)
    ⟨100, "Acme Plant", some 2⟩ (by decide)

/-- C6: a canonical utility always has a name (`utilities.name` is declared
non-nullable, so every valid row carries one), a canonical plant's name is
optional (`plants.name` is nullable, and a row without one is valid), and
both tables have an integer primary-key `id`. -/
theorem canonical_entity_name_requirements (db : GlueDB)
    (h : glueDBok db = true) :
    (Utility.columns.map fun c =>
        (c.colName, c.dtype, c.primary_key, c.nullable)) =
      [("id", SQLType.sqlInteger, true, false),
       ("name", SQLType.sqlString, false, false)] ∧
    (Plant.columns.map fun c =>
        (c.colName, c.dtype, c.primary_key, c.nullable)) =
      [("id", SQLType.sqlInteger, true, false),
       ("name", SQLType.sqlString, false, true)] ∧
    (∀ r ∈ db.utilities, r.name.isSome = true) ∧
    plantRowOK ⟨11, none⟩ = true := by
  obtain ⟨hu, _, _, _, _, _, _, _⟩ := glueDBok_parts db h
  exact ⟨rfl, rfl, fun r hr => hu r hr, rfl⟩

/-- Witness for C6: the single canonical utility row of the example database
carries a name. -/
theorem canonical_entity_name_requirements_witness :
    (⟨1, some "Acme Power"⟩ : UtilityRow).name.isSome = true :=
  (canonical_entity_name_requirements exampleDB (by decide)).2.2.1
    ⟨1, some "Acme Power"⟩ (by decide)

/-- Counterexample for C7 as stated: not every column of every declared
table carries a comment — all three columns of `utilities_ferc` (and of the
other five glue tables) have none. -/
theorem not_every_column_documented :
    (allTables.all fun t => t.columns.all colHasComment) = false ∧
    UtilityFERC1.columns.map Column.comment = [none, none, none] :=
  ⟨rfl, rfl⟩

/-- C7 (amended): only the two classification tables `ferc_accounts` and
`ferc_depreciation_lines` attach a non-empty comment to every column; the
columns of the six glue tables carry no comments (and the schema declares
nine tables, not eight). -/
theorem classification_columns_documented :
    ([FERCAccount, FERCDepreciationLine].all fun t =>
      t.columns.all colHasComment) = true ∧
    (allTables.length = 9) ∧
    ([UtilityFERC1, PlantFERC1, UtilityEIA923, PlantEIA923, Utility, Plant,
      UtilityPlantAssn].all fun t =>
        t.columns.all fun c => c.comment == none) = true :=
  ⟨rfl, rfl, rfl⟩

/-- C8: the combined `us_states_canada_prov_terr` value set is exactly the
US states+territories value set followed by the Canadian
provinces/territories set (membership in the combined enumeration is the
union of the two memberships), the lower-48 enumeration's values are exactly
its fixed key list, and lower-48 validation only accepts members of that
fixed list. -/
theorem combined_enum_is_union :
    us_states_canada_prov_terr.values =
      us_states_territories.values ++ canada_prov_terr_keys ∧
    (∀ v : String, v ∈ us_states_canada_prov_terr.values ↔
      (v ∈ us_states_territories.values ∨ v ∈ canada_prov_terr_keys)) ∧
    us_states_lower48.values = cems_states_keys ∧
    (∀ v : String, validateEnum us_states_lower48 v = Except.ok v →
      v ∈ cems_states_keys) := by
  refine ⟨rfl, fun v => List.mem_append, rfl, fun v hok => ?_⟩
  by_contra hv
  simp [validateEnum, us_states_lower48, hv] at hok

/-- Witness for C8: ON (a Canadian province) is in the combined set via the
Canadian side, and CA is accepted by lower-48 validation hence in the fixed
lower-48 list. -/
theorem combined_enum_is_union_witness :
    "ON" ∈ us_states_canada_prov_terr.values ∧ "CA" ∈ cems_states_keys :=
  ⟨(combined_enum_is_union.2.1 "ON").mpr (Or.inr (by decide)),
   combined_enum_is_union.2.2.2 "CA" rfl⟩

/-- C9: `PlantFERC1.__repr__` never returns a string — for every instance it
raises `AttributeError`, because its f-string first reads
`self.respondent_id`, an attribute no column of the class defines. -/
theorem plantFERC1_repr_always_raises (r : PlantFERC1Row) :
    r.pyRepr = Except.error (PyError.attributeError "respondent_id") := rfl

/-- C10: in any database state satisfying the declared schema constraints,
every `plants_ferc` row's `utility_id_ferc1` equals the `utility_id_ferc1`
of some existing `utilities_ferc` row. -/
theorem ferc_plant_references_ferc_utility (db : GlueDB)
    (h : glueDBok db = true) :
    ∀ r ∈ db.plants_ferc, ∃ u ∈ db.utilities_ferc,
      u.utility_id_ferc1 = r.utility_id_ferc1 := by
  obtain ⟨_, _, hpf, _, _, _, _, _⟩ := glueDBok_parts db h
  intro r hr
  have h2 := hpf r hr
  simp only [plantFercRowOK, Bool.and_eq_true] at h2
  have h3 := h2.1
  simp only [hasUtilityFerc, List.any_eq_true, beq_iff_eq] at h3
  obtain ⟨u, hu, he⟩ := h3
  exact ⟨u, hu, he⟩

/-- Witness for C10: the FERC plant row of the example database references
the registered FERC utility 100. -/
theorem ferc_plant_references_ferc_utility_witness :
    ∃ u ∈ exampleDB.utilities_ferc, u.utility_id_ferc1 =
      (⟨100, "Acme Plant", some 2⟩ : PlantFERC1Row).utility_id_ferc1 :=
  ferc_plant_references_ferc_utility exampleDB (by decide)
    ⟨100, "Acme Plant", some 2⟩ (by decide)

end Pudl
